import Mathlib

/-!
Shallow embedding of the two components of the Karabiner-Elements core.

Component 1 is the Driver Activation Service `krbn::kextd::kext_loader`
(src/core/kextd/include/kextd/kext_loader.hpp): a repeating timer whose
tick asks a weakly-held version monitor for a manual check, resolves the
kernel extension path URL, calls KextManagerLoadKextWithURL, records the
raw result code in the JSON `state_` object, persists the object after
every attempt (and once at start), and on a success result stops the
timer and fires the `kext_loaded` signal.

Component 2 is the System Event Client `hid_system_client`
(src/userspace/share/hid_system_client.hpp): an IOKit client that tracks
the singleton IOHIDSystem service, opening a connection on the first
matched service, closing it in the termination callback, re-querying the
registry to replay arrivals, and posting keyboard events and modifier
lock state over the connection.

Modelling conventions: machine integers are `Nat`/`Int`; IOKit object
handles are `Nat`, with `0` playing the role of `IO_OBJECT_NULL`; each
OS notification or tick carries an oracle record supplying the results
of the OS calls it performs; fallible results are `Option`/`Bool`.
-/

namespace Karabiner

/-- Key actually written by kext_loader into the JSON state object. -/
def loadResultKey : String := "kext_load_result"

/-- Key name that the specification document uses for the persisted result field. -/
def specLoadResultKey : String := "last_load_result"

/-- JSON object with integer values, as an association list; models the nlohmann::json object member state_. -/
abbrev JsonObj := List (String × Int)

/-- Assignment of a JSON object field: replaces the binding if the key is present, appends otherwise. -/
def setField : JsonObj → String → Int → JsonObj
  | [], k, v => [(k, v)]
  | (k0, v0) :: rest, k, v =>
    if k0 = k then (k, v) :: rest else (k0, v0) :: setField rest k v

/-- Lookup of a JSON object field. -/
def getField : JsonObj → String → Option Int
  | [], _ => none
  | (k0, v0) :: rest, k => if k0 = k then some v0 else getField rest k

/-- OS success sentinel for KextManagerLoadKextWithURL (kOSReturnSuccess is zero). -/
def kOSReturnSuccess : Int := 0

/-- Environment of one timer tick: whether the weakly-held version_monitor is still alive, whether make_file_path_url resolves the kext path, and the result code KextManagerLoadKextWithURL would return. -/
structure TickIn where
  monitorAlive : Bool
  urlOk : Bool
  kr : Int
deriving DecidableEq

/-- Observable external calls made by a timer tick. -/
inductive KEff
  | manualCheck
  | loadAttempt (kr : Int)
deriving DecidableEq

/-- State of kext_loader: the JSON state object state_, the ordered history of snapshots handed to write_state_to_file, whether timer_ is running, and how many times the kext_loaded signal was emitted. -/
structure KState where
  state : JsonObj
  writes : List JsonObj
  timerActive : Bool
  loadedCount : Nat
deriving DecidableEq

/-- State right after the kext_loader constructor: state_ is an empty JSON object, nothing written yet, timer not started, signal never fired. -/
def kextLoaderInit : KState :=
  { state := [], writes := [], timerActive := false, loadedCount := 0 }

/-- Body of async_start: writes the current state to the state file and starts the repeating timer. -/
def async_start (s : KState) : KState :=
  { s with writes := s.writes ++ [s.state], timerActive := true }

/-- One timer tick body: signal the version monitor if alive; if the kext file path URL resolves, call KextManagerLoadKextWithURL, store its raw result under the kext_load_result key, persist the state, and on the success sentinel stop the timer and emit kext_loaded; if the URL does not resolve, do nothing further. -/
def tick (s : KState) (i : TickIn) : KState × List KEff :=
  let checkEffs := if i.monitorAlive then [KEff.manualCheck] else []
  if i.urlOk then
    let st := setField s.state loadResultKey i.kr
    let s1 : KState := { s with state := st, writes := s.writes ++ [st] }
    let s2 : KState :=
      if i.kr = kOSReturnSuccess then
        { s1 with timerActive := false, loadedCount := s1.loadedCount + 1 }
      else s1
    (s2, checkEffs ++ [KEff.loadAttempt i.kr])
  else (s, checkEffs)

/-- Run of the repeating timer over a sequence of tick environments; a tick body only runs while the timer is active. -/
def run_ticks (s : KState) : List TickIn → KState
  | [] => s
  | i :: rest =>
    if s.timerActive then run_ticks (tick s i).1 rest else run_ticks s rest

/-- KERN_SUCCESS and kIOReturnSuccess, both zero. -/
def KERN_SUCCESS : Int := 0

/-- NXEventTypes event type used for key-down events. -/
def NX_KEYDOWN : Nat := 10

/-- NXEventTypes event type used for key-up events. -/
def NX_KEYUP : Nat := 11

/-- NXEventTypes event type used by post_modifier_flags. -/
def NX_FLAGSCHANGED : Nat := 12

/-- NXEventTypes event type used by post_aux_control_button. -/
def NX_SYSDEFINED : Nat := 7

/-- Selector for the caps lock modifier lock state. -/
def kIOHIDCapsLockState : Nat := 1

/-- Observable IOKit calls made by hid_system_client. -/
inductive Eff
  | retain (h : Nat)
  | release (h : Nat)
  | openAttempt (svc : Nat) (kr : Int)
  | closeAttempt (c : Nat) (kr : Int)
  | hidPost (c : Nat) (eventType : Nat) (kr : Int)
  | getLock (c : Nat) (kr : Int)
  | setLock (c : Nat) (kr : Int)
  | logError
  | logInfo
deriving DecidableEq

/-- Oracle for the IOKit calls of hid_system_client: the return code of IOServiceOpen per service and the connection handle it writes on success, the return code of IOServiceClose per connection, the result and iterator content of the synchronous IOServiceGetMatchingServices re-query, and the results of IOHIDPostEvent and IOHIDGet/SetModifierLockState. getLockValue is the content of the C++ local variable value after the get call; when that call fails the local stays uninitialized, so the oracle supplies an arbitrary residual value. -/
structure Env where
  openResult : Nat → Int
  openHandle : Nat → Nat
  closeResult : Nat → Int
  requeryResult : Int
  requeryServices : List Nat
  postResult : Int
  getLockResult : Int
  getLockValue : Bool
  setLockResult : Int

/-- Well-formed oracle: a successful IOServiceOpen yields a non-null connection handle. -/
def Env.wf (env : Env) : Prop :=
  ∀ h : Nat, env.openResult h = KERN_SUCCESS → env.openHandle h ≠ 0

/-- State of hid_system_client. service and connect are the members service_ and connect_ (0 stands for IO_OBJECT_NULL). openKr and osOpen are history variables, not C++ members: openKr records the IOServiceOpen return code of the call that last assigned connect_, and osOpen records which connection handles are currently open on the OS side (appended on a successful IOServiceOpen, removed by IOServiceClose). -/
structure ClientState where
  service : Nat
  connect : Nat
  openKr : Int
  osOpen : List Nat
deriving DecidableEq

/-- State established by the hid_system_client constructor: service_ and connect_ are IO_OBJECT_NULL. -/
def client0 : ClientState :=
  { service := 0, connect := 0, openKr := 0, osOpen := [] }

/-- matched_callback: drains the arrival iterator (the while loop stops at the first null handle); for a service found while service_ is null, stores it in service_, retains it, and attempts IOServiceOpen on it — on a non-success code it logs an error and resets connect_ to null, and it logs an info line unconditionally; every drained service is then released. -/
def matched_callback (env : Env) : ClientState → List Nat → ClientState × List Eff
  | s, [] => (s, [])
  | s, svc :: rest =>
    if svc = 0 then (s, [])
    else
      let step :=
        if s.service = 0 then
          let kr := env.openResult svc
          ({ service := svc,
             connect := if kr = KERN_SUCCESS then env.openHandle svc else 0,
             openKr := kr,
             osOpen := if kr = KERN_SUCCESS then s.osOpen ++ [env.openHandle svc] else s.osOpen },
           [Eff.retain svc, Eff.openAttempt svc kr] ++
             (if kr = KERN_SUCCESS then [] else [Eff.logError]) ++ [Eff.logInfo])
        else (s, [])
      let next := matched_callback env step.1 rest
      (next.1, step.2 ++ [Eff.release svc] ++ next.2)

/-- close_connection: if connect_ is non-null, calls IOServiceClose (logging a non-success code) and resets connect_ to null; logs an info line; then releases service_ if it is non-null. Note that the member service_ itself is not reset to null. -/
def close_connection (env : Env) (s : ClientState) : ClientState × List Eff :=
  let step :=
    if s.connect = 0 then (s, [])
    else
      let kr := env.closeResult s.connect
      ({ s with connect := 0, osOpen := s.osOpen.filter (fun c => c != s.connect) },
       [Eff.closeAttempt s.connect kr] ++ (if kr = KERN_SUCCESS then [] else [Eff.logError]))
  (step.1, step.2 ++ [Eff.logInfo] ++
    (if step.1.service = 0 then [] else [Eff.release step.1.service]))

/-- terminated_callback: drains the departure iterator, releasing every yielded service; if nothing was yielded, returns; otherwise closes the connection under the lock, then performs the synchronous IOServiceGetMatchingServices re-query (logging a non-success code) and replays the resulting services through matched_callback. -/
def terminated_callback (env : Env) (s : ClientState) (iter : List Nat) : ClientState × List Eff :=
  let drained := iter.takeWhile (fun h => h != 0)
  if drained = [] then (s, [])
  else
    let rel := drained.map Eff.release
    let closed := close_connection env s
    if env.requeryResult = KERN_SUCCESS then
      let replay := matched_callback env closed.1 env.requeryServices
      (replay.1, rel ++ closed.2 ++ replay.2)
    else
      (closed.1, rel ++ closed.2 ++ [Eff.logError])

/-- post_event: under the lock, if connect_ is null it logs an error and returns; otherwise it calls IOHIDPostEvent, logging a non-success result. The function assigns no member, so the state passes through unchanged. -/
def post_event (env : Env) (s : ClientState) (eventType : Nat) : ClientState × List Eff :=
  if s.connect = 0 then (s, [Eff.logError])
  else
    (s, [Eff.hidPost s.connect eventType env.postResult] ++
      (if env.postResult = KERN_SUCCESS then [] else [Eff.logError]))

/-- Direction of a key event (krbn::event_type). -/
inductive event_type
  | key_down
  | key_up
deriving DecidableEq

/-- Shape selector of the public post_key (hid_system_client::post_key_type). -/
inductive post_key_type
  | key
  | aux_control_button
deriving DecidableEq

/-- post_modifier_flags posts an NX_FLAGSCHANGED event carrying the modifier bitmask. -/
def post_modifier_flags (env : Env) (s : ClientState) (flags : Nat) : ClientState × List Eff :=
  post_event env s NX_FLAGSCHANGED

/-- Keyboard shape of post_key: posts NX_KEYDOWN or NX_KEYUP according to the direction. -/
def post_key_keyboard (env : Env) (s : ClientState) (keyCode : Nat) (et : event_type)
    (flags : Nat) (rep : Bool) : ClientState × List Eff :=
  post_event env s
    (match et with
     | event_type.key_down => NX_KEYDOWN
     | event_type.key_up => NX_KEYUP)

/-- post_aux_control_button posts an NX_SYSDEFINED compound event. -/
def post_aux_control_button (env : Env) (s : ClientState) (keyCode : Nat) (et : event_type)
    (flags : Nat) (rep : Bool) : ClientState × List Eff :=
  post_event env s NX_SYSDEFINED

/-- Public post_key: dispatches on the post_key_type shape selector. -/
def post_key (env : Env) (s : ClientState) (t : post_key_type) (keyCode : Nat) (et : event_type)
    (flags : Nat) (rep : Bool) : ClientState × List Eff :=
  match t with
  | post_key_type.key => post_key_keyboard env s keyCode et flags rep
  | post_key_type.aux_control_button => post_aux_control_button env s keyCode et flags rep

/-- get_modifier_lock_state: if connect_ is null, logs an error and returns boost::none; otherwise calls IOHIDGetModifierLockState into the local value (logging a non-success code) and returns value converted to an engaged optional regardless of the result code. -/
def get_modifier_lock_state (env : Env) (s : ClientState) (selector : Nat) :
    ClientState × Option Bool × List Eff :=
  if s.connect = 0 then (s, none, [Eff.logError])
  else
    (s, some env.getLockValue,
      [Eff.getLock s.connect env.getLockResult] ++
        (if env.getLockResult = KERN_SUCCESS then [] else [Eff.logError]))

/-- set_modifier_lock_state: if connect_ is null, logs an error and returns false; otherwise calls IOHIDSetModifierLockState, returning false after logging on a non-success code and true otherwise. -/
def set_modifier_lock_state (env : Env) (s : ClientState) (selector : Nat) (state : Bool) :
    ClientState × Bool × List Eff :=
  if s.connect = 0 then (s, false, [Eff.logError])
  else
    if env.setLockResult = KERN_SUCCESS then
      (s, true, [Eff.setLock s.connect env.setLockResult])
    else
      (s, false, [Eff.setLock s.connect env.setLockResult, Eff.logError])

/-- get_caps_lock_state delegates to get_modifier_lock_state with the caps lock selector. -/
def get_caps_lock_state (env : Env) (s : ClientState) : ClientState × Option Bool × List Eff :=
  get_modifier_lock_state env s kIOHIDCapsLockState

/-- set_caps_lock_state delegates to set_modifier_lock_state with the caps lock selector. -/
def set_caps_lock_state (env : Env) (s : ClientState) (state : Bool) :
    ClientState × Bool × List Eff :=
  set_modifier_lock_state env s kIOHIDCapsLockState state

/-- Notification events delivered by the service_observer, each carrying the oracle for the OS calls made while handling it. -/
inductive ClientEvent
  | matched (env : Env) (iter : List Nat)
  | terminated (env : Env) (iter : List Nat)

/-- Handle one notification event. -/
def client_step (s : ClientState) : ClientEvent → ClientState × List Eff
  | ClientEvent.matched env iter => matched_callback env s iter
  | ClientEvent.terminated env iter => terminated_callback env s iter

/-- Run a sequence of notification events from a state, accumulating the observable calls. -/
def client_run (s : ClientState) : List ClientEvent → ClientState × List Eff
  | [] => (s, [])
  | e :: rest =>
    let st := client_step s e
    let next := client_run st.1 rest
    (next.1, st.2 ++ next.2)

/-- Well-formedness of the oracle attached to an event. -/
def eventWf : ClientEvent → Prop
  | ClientEvent.matched env _ => env.wf
  | ClientEvent.terminated env _ => env.wf

/-- Connection invariant: a non-null connect_ implies a non-null service_ whose IOServiceOpen returned KERN_SUCCESS, and the OS-side open connections are exactly the held handle (none when disconnected). -/
def ConnInv (s : ClientState) : Prop :=
  (s.connect ≠ 0 → s.service ≠ 0 ∧ s.openKr = KERN_SUCCESS) ∧
  s.osOpen = (if s.connect = 0 then [] else [s.connect])

/-- Sample oracle where every call succeeds, IOServiceOpen yields handle 5, and the re-query reports service 3. -/
def envOk : Env :=
  { openResult := fun _ => 0
    openHandle := fun _ => 5
    closeResult := fun _ => 0
    requeryResult := 0
    requeryServices := [3]
    postResult := 0
    getLockResult := 0
    getLockValue := true
    setLockResult := 0 }

/-- Sample oracle where IOHIDGetModifierLockState returns the non-success code 1. -/
def envGetFails : Env :=
  { envOk with getLockResult := 1 }

/-- Reading back the field just assigned on a JSON object yields the assigned value. -/
theorem getField_setField_same (st : JsonObj) (k : String) (v : Int) :
    getField (setField st k v) k = some v := by
  induction st with
  | nil => simp [setField, getField]
  | cons p rest ih =>
    obtain ⟨k0, v0⟩ := p
    by_cases h : k0 = k
    · simp [setField, getField, h]
    · simp [setField, getField, h, ih]

/-- Once the timer is stopped, running any further tick environments changes nothing. -/
theorem run_ticks_of_stopped (s : KState) (l : List TickIn) (h : s.timerActive = false) :
    run_ticks s l = s := by
  induction l with
  | nil => rfl
  | cons i rest ih => simp [run_ticks, h, ih]

/-- A tick whose activation call returns the success sentinel stops the timer and emits the signal once more. -/
theorem tick_success (s : KState) (i : TickIn) (hurl : i.urlOk = true)
    (hkr : i.kr = kOSReturnSuccess) :
    ((tick s i).1).timerActive = false ∧ ((tick s i).1).loadedCount = s.loadedCount + 1 := by
  simp [tick, hurl, hkr]

/-- A tick that does not observe the success sentinel preserves the timer flag and the emission count. -/
theorem tick_not_success (s : KState) (i : TickIn)
    (h : ¬(i.urlOk = true ∧ i.kr = kOSReturnSuccess)) :
    ((tick s i).1).timerActive = s.timerActive ∧
    ((tick s i).1).loadedCount = s.loadedCount := by
  cases hu : i.urlOk with
  | false => simp [tick, hu]
  | true =>
    have hk : ¬ i.kr = kOSReturnSuccess := fun hk => h ⟨hu, hk⟩
    simp [tick, hu, hk]

/-- Running the timer from an active state with no prior emission, over a trace containing a successful tick, ends with the timer stopped and exactly one emission. -/
theorem run_ticks_reaches_success (l : List TickIn) :
    ∀ s : KState, s.timerActive = true → s.loadedCount = 0 →
      (∃ i ∈ l, i.urlOk = true ∧ i.kr = kOSReturnSuccess) →
      (run_ticks s l).timerActive = false ∧ (run_ticks s l).loadedCount = 1 := by
  induction l with
  | nil =>
    intro s _ _ hex
    simp at hex
  | cons i rest ih =>
    intro s hact hcnt hex
    rw [run_ticks, if_pos hact]
    by_cases hi : i.urlOk = true ∧ i.kr = kOSReturnSuccess
    · have hs := tick_success s i hi.1 hi.2
      rw [run_ticks_of_stopped _ rest hs.1]
      exact ⟨hs.1, by rw [hs.2, hcnt]⟩
    · have hs := tick_not_success s i hi
      have hex2 : ∃ j ∈ rest, j.urlOk = true ∧ j.kr = kOSReturnSuccess := by
        obtain ⟨j, hj, hjp⟩ := hex
        rcases List.mem_cons.mp hj with hj1 | hj2
        · exact absurd (hj1 ▸ hjp) hi
        · exact ⟨j, hj2, hjp⟩
      exact ih (tick s i).1 (hs.1.trans hact) (hs.2.trans hcnt) hex2

/-- A batch drained while service_ is non-null changes nothing: every yielded service is released and no open is attempted. -/
theorem matched_callback_occupied (env : Env) (s : ClientState) (l : List Nat)
    (hsvc : s.service ≠ 0) (hl : ∀ x ∈ l, x ≠ 0) :
    matched_callback env s l = (s, l.map Eff.release) := by
  induction l with
  | nil => rfl
  | cons a rest ih =>
    have ha : a ≠ 0 := hl a (List.mem_cons_self a rest)
    have hrest : ∀ x ∈ rest, x ≠ 0 := fun x hx => hl x (List.mem_cons_of_mem a hx)
    simp [matched_callback, ha, hsvc, ih hrest]

/-- The connection invariant holds for the freshly constructed client. -/
theorem connInv_client0 : ConnInv client0 := by
  constructor
  · intro h
    exact absurd rfl h
  · rfl

/-- close_connection preserves the connection invariant. -/
theorem close_connection_inv (env : Env) (s : ClientState) (h : ConnInv s) :
    ConnInv (close_connection env s).1 := by
  by_cases hc : s.connect = 0
  · simpa [close_connection, hc] using h
  · obtain ⟨h1, h2⟩ := h
    rw [if_neg hc] at h2
    constructor
    · intro hcontra
      simp [close_connection, hc] at hcontra
    · simp [close_connection, hc, h2]

/-- matched_callback preserves the connection invariant when the oracle is well formed. -/
theorem matched_callback_inv (env : Env) (hwf : env.wf) :
    ∀ (l : List Nat) (s : ClientState), ConnInv s → ConnInv (matched_callback env s l).1 := by
  intro l
  induction l with
  | nil => intro s h; exact h
  | cons a rest ih =>
    intro s h
    by_cases ha : a = 0
    · simpa [matched_callback, ha] using h
    · by_cases hs : s.service = 0
      · have hc : s.connect = 0 := by
          by_contra hc
          exact (h.1 hc).1 hs
        have hoso : s.osOpen = [] := by
          rw [h.2, if_pos hc]
        simp only [matched_callback, ha, hs, if_neg ha, if_pos hs]
        apply ih
        by_cases hkr : env.openResult a = KERN_SUCCESS
        · constructor
          · intro _
            exact ⟨ha, by simp [hkr]⟩
          · simp [hkr, hoso, hwf a hkr]
        · constructor
          · intro hcontra
            simp [hkr] at hcontra
          · simp [hkr, hoso]
      · simp only [matched_callback, if_neg ha, if_neg hs]
        exact ih s h

/-- terminated_callback preserves the connection invariant when the oracle is well formed. -/
theorem terminated_callback_inv (env : Env) (hwf : env.wf) (s : ClientState) (iter : List Nat)
    (h : ConnInv s) : ConnInv (terminated_callback env s iter).1 := by
  by_cases hd : iter.takeWhile (fun x => x != 0) = []
  · simpa [terminated_callback, hd] using h
  · by_cases hq : env.requeryResult = KERN_SUCCESS
    · simpa [terminated_callback, hd, hq] using
        matched_callback_inv env hwf env.requeryServices _ (close_connection_inv env s h)
    · simpa [terminated_callback, hd, hq] using close_connection_inv env s h

/-- Any run of notification events with well-formed oracles preserves the connection invariant. -/
theorem client_run_inv (events : List ClientEvent) :
    ∀ s : ClientState, (∀ e ∈ events, eventWf e) → ConnInv s →
      ConnInv (client_run s events).1 := by
  induction events with
  | nil => intro s _ h; exact h
  | cons e rest ih =>
    intro s hwf h
    have he : eventWf e := hwf e (List.mem_cons_self e rest)
    have hrest : ∀ x ∈ rest, eventWf x := fun x hx => hwf x (List.mem_cons_of_mem e hx)
    cases e with
    | matched env iter =>
      simpa [client_run, client_step] using ih _ hrest (matched_callback_inv env he iter s h)
    | terminated env iter =>
      simpa [client_run, client_step] using ih _ hrest (terminated_callback_inv env he s iter h)

/-- C1: evaluation of the code at a failing input. The client is connected (service_ = 1, connect_ = 2), the termination iterator yields service 1, the synchronous re-query succeeds and reports service 3, and IOServiceOpen would return KERN_SUCCESS; yet termination handling ends with connect_ still null (and the stale service_ still set) instead of an open connection, because close_connection never resets service_ and the replayed matched_callback therefore releases the re-enumerated service without opening it. -/
theorem c1_termination_never_reconnects :
    envOk.requeryResult = KERN_SUCCESS ∧
    envOk.requeryServices ≠ [] ∧
    envOk.openResult 3 = KERN_SUCCESS ∧
    (terminated_callback envOk ⟨1, 2, 0, [2]⟩ [1]).1.connect = 0 ∧
    (terminated_callback envOk ⟨1, 2, 0, [2]⟩ [1]).1.service = 1 := by
  refine ⟨rfl, by decide, rfl, by decide, by decide⟩

/-- C2: evaluation of the code at a failing input. After the close step of termination handling from the connected state service_ = 1, connect_ = 2, the connection handle is null but the service handle member is not cleared: it still holds 1. -/
theorem c2_service_handle_not_cleared :
    (close_connection envOk ⟨1, 2, 0, [2]⟩).1.connect = 0 ∧
    (close_connection envOk ⟨1, 2, 0, [2]⟩).1.service = 1 := by
  refine ⟨by decide, by decide⟩

/-- C3: evaluation of the code at a failing input. With a live connection and IOHIDGetModifierLockState returning the non-success code 1, get_caps_lock_state returns an engaged optional carrying the residual content of the uninitialized local, not an absent result. -/
theorem c3_error_returns_engaged_optional :
    envGetFails.getLockResult ≠ KERN_SUCCESS ∧
    (get_caps_lock_state envGetFails ⟨1, 2, 0, [2]⟩).2.1 = some true ∧
    (get_caps_lock_state envGetFails ⟨1, 2, 0, [2]⟩).2.1 ≠ none := by
  refine ⟨by decide, by decide, by decide⟩

/-- C4 (amended): the state record is written to the external store at start and after every attempt that reaches the OS activation call, and after such an attempt the record maps the key kext_load_result to the raw result code of that most recent attempt. -/
theorem c4_state_written_and_records_result (s : KState) (i : TickIn) :
    (async_start s).writes = s.writes ++ [s.state] ∧
    (i.urlOk = true →
      getField ((tick s i).1).state loadResultKey = some i.kr ∧
      ((tick s i).1).writes = s.writes ++ [((tick s i).1).state]) := by
  refine ⟨rfl, fun hu => ?_⟩
  by_cases hk : i.kr = kOSReturnSuccess
  · exact ⟨by simp [tick, hu, hk, getField_setField_same], by simp [tick, hu, hk]⟩
  · exact ⟨by simp [tick, hu, hk, getField_setField_same], by simp [tick, hu, hk]⟩

/-- C4 witness: a concrete attempt with result 9 leaves the record mapping kext_load_result to 9 and appends exactly one write. -/
theorem c4_written_records_witness :
    getField ((tick (async_start kextLoaderInit) ⟨true, true, 9⟩).1).state loadResultKey = some 9 ∧
    ((tick (async_start kextLoaderInit) ⟨true, true, 9⟩).1).writes =
      (async_start kextLoaderInit).writes ++
        [((tick (async_start kextLoaderInit) ⟨true, true, 9⟩).1).state] :=
  (c4_state_written_and_records_result (async_start kextLoaderInit) ⟨true, true, 9⟩).2 rfl

/-- C4 counterexample: after an attempt with result 7 the persisted record has no field named last_load_result; the field is named kext_load_result. -/
theorem c4_last_load_result_absent :
    getField ((tick (async_start kextLoaderInit) ⟨true, true, 7⟩).1).state specLoadResultKey = none ∧
    getField ((tick (async_start kextLoaderInit) ⟨true, true, 7⟩).1).state loadResultKey = some 7 := by
  refine ⟨by decide, by decide⟩

/-- C5: over every sequence of timer ticks after async_start, once a tick observes the success sentinel the timer is stopped, the kext_loaded signal has fired exactly once, and running any further tick environments changes nothing. -/
theorem c5_success_stops_timer_fires_once (l more : List TickIn)
    (hex : ∃ i ∈ l, i.urlOk = true ∧ i.kr = kOSReturnSuccess) :
    (run_ticks (async_start kextLoaderInit) l).timerActive = false ∧
    (run_ticks (async_start kextLoaderInit) l).loadedCount = 1 ∧
    run_ticks (run_ticks (async_start kextLoaderInit) l) more =
      run_ticks (async_start kextLoaderInit) l := by
  have h := run_ticks_reaches_success l (async_start kextLoaderInit) rfl rfl hex
  exact ⟨h.1, h.2, run_ticks_of_stopped _ more h.1⟩

/-- C5 witness: a failing tick followed by a successful one stops the timer with one emission, and a later tick environment is inert. -/
theorem c5_witness :
    (run_ticks (async_start kextLoaderInit) [⟨true, true, 1⟩, ⟨true, true, 0⟩]).timerActive = false ∧
    (run_ticks (async_start kextLoaderInit) [⟨true, true, 1⟩, ⟨true, true, 0⟩]).loadedCount = 1 ∧
    run_ticks (run_ticks (async_start kextLoaderInit) [⟨true, true, 1⟩, ⟨true, true, 0⟩])
        [⟨true, true, 4⟩] =
      run_ticks (async_start kextLoaderInit) [⟨true, true, 1⟩, ⟨true, true, 0⟩] :=
  c5_success_stops_timer_fires_once _ _ ⟨⟨true, true, 0⟩, by decide, by decide, by decide⟩

/-- C6: an arrival batch of two or more non-null services processed in the disconnected state retains exactly the first service and attempts IOServiceOpen only on it, recording the result in connect_; every later service in the batch is only released. -/
theorem c6_first_match_wins (env : Env) (s : ClientState) (a : Nat) (rest : List Nat)
    (ha : a ≠ 0) (hrest : ∀ x ∈ rest, x ≠ 0) (hlen : rest ≠ [])
    (hsvc : s.service = 0) (hconn : s.connect = 0) :
    (matched_callback env s (a :: rest)).1.service = a ∧
    (matched_callback env s (a :: rest)).1.connect =
      (if env.openResult a = KERN_SUCCESS then env.openHandle a else 0) ∧
    (matched_callback env s (a :: rest)).2 =
      [Eff.retain a, Eff.openAttempt a (env.openResult a)] ++
        (if env.openResult a = KERN_SUCCESS then [] else [Eff.logError]) ++
        [Eff.logInfo, Eff.release a] ++ rest.map Eff.release := by
  have hocc := matched_callback_occupied env
    { service := a,
      connect := if env.openResult a = KERN_SUCCESS then env.openHandle a else 0,
      openKr := env.openResult a,
      osOpen := if env.openResult a = KERN_SUCCESS then s.osOpen ++ [env.openHandle a]
        else s.osOpen }
    rest ha hrest
  refine ⟨?_, ?_, ?_⟩ <;>
    simp [matched_callback, ha, hsvc, hocc, List.append_assoc]

/-- C6 witness: from the freshly constructed client, the batch of services 1 and 2 connects service 1 and merely releases service 2. -/
theorem c6_witness :
    (matched_callback envOk client0 [1, 2]).1.service = 1 ∧
    (matched_callback envOk client0 [1, 2]).1.connect =
      (if envOk.openResult 1 = KERN_SUCCESS then envOk.openHandle 1 else 0) ∧
    (matched_callback envOk client0 [1, 2]).2 =
      [Eff.retain 1, Eff.openAttempt 1 (envOk.openResult 1)] ++
        (if envOk.openResult 1 = KERN_SUCCESS then [] else [Eff.logError]) ++
        [Eff.logInfo, Eff.release 1] ++ [2].map Eff.release :=
  c6_first_match_wins envOk client0 1 [2] (by decide) (by decide) (by decide) rfl rfl

/-- C7: every posting or modifier-lock operation invoked while no connection is held logs an error, performs no OS call, leaves the client state unchanged, and returns the failure result: nothing for posts, an absent optional for get, false for set. -/
theorem c7_disconnected_ops_fail_safely (env : Env) (s : ClientState) (flags keyCode : Nat)
    (t : post_key_type) (et : event_type) (rep b : Bool) (hconn : s.connect = 0) :
    post_modifier_flags env s flags = (s, [Eff.logError]) ∧
    post_key env s t keyCode et flags rep = (s, [Eff.logError]) ∧
    get_caps_lock_state env s = (s, none, [Eff.logError]) ∧
    set_caps_lock_state env s b = (s, false, [Eff.logError]) := by
  cases t <;> cases et <;>
    simp [post_modifier_flags, post_key, post_key_keyboard, post_aux_control_button, post_event,
      get_caps_lock_state, get_modifier_lock_state, set_caps_lock_state, set_modifier_lock_state,
      hconn]

/-- C7 witness: the four operations on the freshly constructed (disconnected) client. -/
theorem c7_witness :
    post_modifier_flags envOk client0 0 = (client0, [Eff.logError]) ∧
    post_key envOk client0 post_key_type.key 0 event_type.key_down 0 false =
      (client0, [Eff.logError]) ∧
    get_caps_lock_state envOk client0 = (client0, none, [Eff.logError]) ∧
    set_caps_lock_state envOk client0 true = (client0, false, [Eff.logError]) :=
  c7_disconnected_ops_fail_safely envOk client0 0 0 post_key_type.key event_type.key_down
    false true rfl

/-- C8: a tick on which URL resolution fails makes no activation call and no write, leaves the whole kext_loader state (including the persisted history) unchanged, and leaves the timer running. -/
theorem c8_url_failure_skips_attempt (s : KState) (i : TickIn)
    (hact : s.timerActive = true) (hurl : i.urlOk = false) :
    (tick s i).1 = s ∧
    (tick s i).2 = (if i.monitorAlive then [KEff.manualCheck] else []) ∧
    ((tick s i).1).timerActive = true := by
  refine ⟨?_, ?_, ?_⟩ <;> simp [tick, hurl, hact]

/-- C8 witness: a concrete tick with an unresolvable URL right after async_start. -/
theorem c8_witness :
    (tick (async_start kextLoaderInit) ⟨true, false, 3⟩).1 = async_start kextLoaderInit ∧
    (tick (async_start kextLoaderInit) ⟨true, false, 3⟩).2 =
      (if (true : Bool) then [KEff.manualCheck] else []) ∧
    ((tick (async_start kextLoaderInit) ⟨true, false, 3⟩).1).timerActive = true :=
  c8_url_failure_skips_attempt (async_start kextLoaderInit) ⟨true, false, 3⟩ rfl rfl

/-- C9: in every state reachable from the freshly constructed client under any interleaving of arrival and termination notifications with well-formed oracles, connect_ is non-null only if service_ is non-null and the IOServiceOpen that produced connect_ returned KERN_SUCCESS, and at most one OS connection is open at any instant. -/
theorem c9_connection_invariant (events : List ClientEvent)
    (hwf : ∀ e ∈ events, eventWf e) :
    ((client_run client0 events).1.connect ≠ 0 →
      (client_run client0 events).1.service ≠ 0 ∧
      (client_run client0 events).1.openKr = KERN_SUCCESS) ∧
    (client_run client0 events).1.osOpen.length ≤ 1 := by
  have h := client_run_inv events client0 hwf connInv_client0
  refine ⟨h.1, ?_⟩
  rw [h.2]
  by_cases hc : (client_run client0 events).1.connect = 0 <;> simp [hc]

/-- C9 witness: the invariant after one arrival of service 1 under the all-success oracle. -/
theorem c9_witness :
    ((client_run client0 [ClientEvent.matched envOk [1]]).1.connect ≠ 0 →
      (client_run client0 [ClientEvent.matched envOk [1]]).1.service ≠ 0 ∧
      (client_run client0 [ClientEvent.matched envOk [1]]).1.openKr = KERN_SUCCESS) ∧
    (client_run client0 [ClientEvent.matched envOk [1]]).1.osOpen.length ≤ 1 :=
  c9_connection_invariant [ClientEvent.matched envOk [1]] (by
    intro e he
    rw [List.mem_singleton] at he
    subst he
    show Env.wf envOk
    intro h hh
    simp [envOk])

/-- C10: an arrival batch processed while service_ is non-null — in particular after a failed open, when connect_ is null — makes no open attempt and changes nothing: every yielded service is simply released, so a failed open is not retried by arrivals. -/
theorem c10_no_retry_while_service_held (env : Env) (s : ClientState) (l : List Nat)
    (hsvc : s.service ≠ 0) (hl : ∀ x ∈ l, x ≠ 0) :
    matched_callback env s l = (s, l.map Eff.release) :=
  matched_callback_occupied env s l hsvc hl

/-- C10 witness: a failed-open state (service_ = 1, connect_ null, open result 3 recorded) stays unchanged on a batch of services 4 and 5, which are only released. -/
theorem c10_witness :
    matched_callback envOk ⟨1, 0, 3, []⟩ [4, 5] =
      (⟨1, 0, 3, []⟩, [Eff.release 4, Eff.release 5]) :=
  c10_no_retry_while_service_held envOk ⟨1, 0, 3, []⟩ [4, 5] (by decide) (by decide)

end Karabiner
